import Mathlib

/-!
Verification development for the hvac_energy_model repository.

The Python sources under src/ are shallowly embedded here.  Python floats
are modelled as rationals: every operation the model performs on them
(addition, subtraction, multiplication, division, absolute value,
comparison) is exact on the values the claims are about, so the algebraic
structure of the code is preserved.  Numeric literals from the source are
written as exact rationals (for example 1.006 becomes 503/500).
-/

namespace HvacSim

/-- Physical parameters of the model, embedded from the dataclass Params in
src/hvac_sim/parameters.py.  Field defaults mirror the dataclass defaults.
The dataclass performs no validation of any kind. -/
structure Params where
  R_oa : ℚ := 3
  R_wz : ℚ := 8/5
  R_ow : ℚ := 2
  C_z : ℚ := 3000
  C_w : ℚ := 15000
  COP : ℚ := 7/2
  P_fan_des : ℚ := 6/5
  m_air_des : ℚ := 5/2
  V : ℚ := 240
  ACH : ℚ := 2/5
  E_occ : ℚ := 1/200
  c_p : ℚ := 503/500
  COP_cool : ℚ := 7/2
  COP_heat : ℚ := 3

/-- Property C_z_kW of Params: returns C_z unchanged. -/
def Params.C_z_kW (p : Params) : ℚ := p.C_z

/-- Property C_w_kW of Params: returns C_w unchanged. -/
def Params.C_w_kW (p : Params) : ℚ := p.C_w

/-- Params() with all defaults, as constructed in dashboard.py and
run_live_hvac.py. -/
def defaultParams : Params := {}

/-- The hvac_power function of src/hvac_sim/physics.py.  Returns the pair
(Q, P): HVAC heat flow and electrical power. -/
def hvac_power (T_z T_set : ℚ) (p : Params) : ℚ × ℚ :=
  let m_air := p.m_air_des
  let delta := T_z - T_set
  if 0 < delta then
    -- Cooling needed
    let Q := m_air * p.c_p * delta
    (Q, Q / p.COP + p.P_fan_des)
  else if delta < 0 then
    -- Heating needed
    let Q := m_air * p.c_p * delta
    (Q, |Q| / p.COP + p.P_fan_des)
  else
    (0, 0)

/-- External inputs of one step: the inp dictionary consumed by rhs.
I_sol and Q_int are optional keys; rhs reads them with dict.get and
defaults of 0.0 and 100.0 * N_occ respectively. -/
structure Inputs where
  T_out : ℚ
  N_occ : ℚ
  T_set : ℚ
  I_sol : Option ℚ := none
  Q_int : Option ℚ := none

/-- The state vector [T_z, T_w, CO2_z] threaded through rhs and the
simulator. -/
structure State where
  T_z : ℚ
  T_w : ℚ
  CO2_z : ℚ

/-- The four entries of the array returned by rhs: the three state
derivatives plus the instantaneous electrical power. -/
structure Deriv where
  dTz : ℚ
  dTw : ℚ
  dCO2 : ℚ
  P_e : ℚ

/-- The rhs function of src/hvac_sim/physics.py: rates of change of the
three state variables plus the current electrical power. -/
def rhs (state : State) (inp : Inputs) (p : Params) : Deriv :=
  let T_z := state.T_z
  let T_w := state.T_w
  let CO2_z := state.CO2_z
  let T_out := inp.T_out
  let N_occ := inp.N_occ
  let T_set := inp.T_set
  let I_sol := inp.I_sol.getD 0
  let Q_int := inp.Q_int.getD (100 * N_occ)
  let QP := hvac_power T_z T_set p
  let Q_HVAC := QP.1
  let P_e := QP.2
  let dTz := ((T_out - T_z) / p.R_oa +
              (T_w - T_z) / p.R_wz +
              Q_int / 1000 -
              Q_HVAC) / p.C_z_kW
  let dTw := ((T_z - T_w) / p.R_wz +
              (T_out - T_w) / p.R_ow +
              I_sol / 1000) / p.C_w_kW
  let Vdot_inf := p.ACH * p.V / 3600
  let C_out : ℚ := 400
  let E_m3s := p.E_occ * N_occ / 1000
  let dCO2 := (Vdot_inf * (C_out - CO2_z) + E_m3s * 1000000) / p.V
  ⟨dTz, dTw, dCO2, P_e⟩

/-- Mutable attributes of an HVACSimulator instance: the state array and
the cumulative energy accumulator.  The parameters and the step size dt_s
are set at construction and never reassigned by any method, so they appear
as plain arguments of step below. -/
structure SimState where
  state : State
  cumulative_energy_kwh : ℚ

/-- The results dictionary returned by HVACSimulator.step. -/
structure StepResult where
  T_z : ℚ
  T_w : ℚ
  CO2_z : ℚ
  P_e : ℚ
  E_KWh_cumulative : ℚ

namespace HVACSimulator

/-- The step method of src/hvac_sim/simulator.py: compute the derivatives
at the current state, advance the state by forward Euler, accumulate
energy, and return the results dictionary together with the new instance
state. -/
def step (p : Params) (dt_s : ℚ) (s : SimState) (inputs : Inputs) :
    SimState × StepResult :=
  let deriv := rhs s.state inputs p
  let newState : State :=
    ⟨s.state.T_z + deriv.dTz * dt_s,
     s.state.T_w + deriv.dTw * dt_s,
     s.state.CO2_z + deriv.dCO2 * dt_s⟩
  let power_kw := deriv.P_e
  let newEnergy := s.cumulative_energy_kwh + power_kw * dt_s / 3600
  (⟨newState, newEnergy⟩,
   ⟨newState.T_z, newState.T_w, newState.CO2_z, power_kw, newEnergy⟩)

/-- Repeated invocation of step on a list of input events, returning the
final instance state and the list of per-step results in call order. -/
def runSteps (p : Params) (dt_s : ℚ) (s : SimState) :
    List Inputs → SimState × List StepResult
  | [] => (s, [])
  | inp :: rest =>
      let sr := step p dt_s s inp
      let tail := runSteps p dt_s sr.1 rest
      (tail.1, sr.2 :: tail.2)

end HVACSimulator

/-- The main loop of run_simulation in src/hvac_sim/simulate.py, with the
initial state and energy accumulator taken as parameters (run_simulation
enters the loop with state [T0, T0, 600] and energy 0, where T0 is the
first T_set of the input frame).  Each record holds
(T_z, T_w, CO2_z, P_e, E_KWh) after the Euler update, exactly as appended
to rec in the source. -/
def run_simulation_loop (p : Params) (dt_s : ℚ) :
    State → ℚ → List Inputs → List (ℚ × ℚ × ℚ × ℚ × ℚ)
  | _, _, [] => []
  | state, energy, row :: rest =>
      let deriv := rhs state row p
      let state1 : State :=
        ⟨state.T_z + deriv.dTz * dt_s,
         state.T_w + deriv.dTw * dt_s,
         state.CO2_z + deriv.dCO2 * dt_s⟩
      let P_e := deriv.P_e
      let energy1 := energy + P_e * dt_s / 3600
      (state1.T_z, state1.T_w, state1.CO2_z, P_e, energy1) ::
        run_simulation_loop p dt_s state1 energy1 rest

/-- The run_simulation function of src/hvac_sim/simulate.py on a list of
input rows: none on an empty frame (iloc[0] would raise), otherwise the
loop above started from [T0, T0, 600] and zero energy.  The forecast
columns added after the loop are shifted copies of the recorded series and
are not modelled. -/
def run_simulation (p : Params) (dt_s : ℚ) (rows : List Inputs) :
    Option (List (ℚ × ℚ × ℚ × ℚ × ℚ)) :=
  match rows with
  | [] => none
  | r :: _ => some (run_simulation_loop p dt_s ⟨r.T_set, r.T_set, 600⟩ 0 rows)

/-- Constructor generated for the Params dataclass.  The generated
initializer only assigns the fields; src/hvac_sim/parameters.py contains
no validation and no other method, so construction never fails.  The
Option codomain records the possibility of failure that construction of a
parameter set could in principle have. -/
def mkParams (R_oa R_wz R_ow C_z C_w COP P_fan_des m_air_des V ACH E_occ
    c_p COP_cool COP_heat : ℚ) : Option Params :=
  some ⟨R_oa, R_wz, R_ow, C_z, C_w, COP, P_fan_des, m_air_des, V, ACH,
    E_occ, c_p, COP_cool, COP_heat⟩

/-- Params(R_oa=-1.0), all other fields at their defaults: a parameter
set with a non-positive thermal constant. -/
def badParams : Params := { defaultParams with R_oa := -1 }

/-- Simulator attributes of the concrete scenario of the spec test list:
initial state [18, 19, 600] and zero cumulative energy, as in
dashboard.py. -/
def simState0 : SimState := ⟨⟨18, 19, 600⟩, 0⟩

/-- The SensorEvent of the concrete scenario: T_out 25, N_occ 5, T_set
24, I_sol 0. -/
def inputs0 : Inputs := ⟨25, 5, 24, some 0, none⟩

end HvacSim

namespace Dashboard

open HvacSim

/-- Maximum length of the data_deque of dashboard.py, created as
deque(maxlen=288). -/
def dequeMaxlen : ℕ := 288

/-- A record appended to data_deque by on_sensor_data_received: the step
results dictionary extended with the occupant count and the setpoint.
The wall-clock timestamp also stored there is external real time and is
not modelled; it plays no role in any claim. -/
structure DashRecord where
  result : StepResult
  N_occ : ℚ
  T_set : ℚ

/-- Append with the semantics of collections.deque with a maxlen: when
the buffer is already at maxlen, the oldest element is discarded to make
room.  Appending is total and never raises. -/
def dequeAppend {α : Type} (buf : List α) (x : α) : List α :=
  if buf.length < dequeMaxlen then buf ++ [x] else buf.tail ++ [x]

/-- Appending a whole sequence of records in order. -/
def dequeAppendAll {α : Type} (buf : List α) (xs : List α) : List α :=
  xs.foldl dequeAppend buf

/-- Exception classes that can arise in the ingestion callback. -/
inductive PyError where
  | keyError
  | valueError
  | typeError

/-- A JSON field value as decoded by json.loads, classified by how the
float() and int() builtins behave on it: num covers int, float and bool
values as well as numeric strings (conversion succeeds), nonNumericStr
covers strings that do not parse as a number (conversion raises
ValueError), and other covers null, arrays and objects (conversion raises
TypeError). -/
inductive FieldVal where
  | num (q : ℚ)
  | nonNumericStr
  | other

/-- Subscript access msg_dict[key]: raises KeyError when the key is
missing. -/
def getItem {α : Type} : Option α → Except PyError α
  | none => .error .keyError
  | some v => .ok v

/-- The float() builtin applied to a decoded JSON value. -/
def pyFloat : FieldVal → Except PyError ℚ
  | .num q => .ok q
  | .nonNumericStr => .error .valueError
  | .other => .error .typeError

/-- Truncation toward zero, the rounding of the int() builtin on a
number. -/
def truncTowardZero (q : ℚ) : ℤ :=
  q.num.sign * (q.num.natAbs / q.den : ℕ)

/-- The int() builtin applied to a decoded JSON value. -/
def pyInt : FieldVal → Except PyError ℤ
  | .num q => .ok (truncTowardZero q)
  | .nonNumericStr => .error .valueError
  | .other => .error .typeError

/-- An inbound sensor payload after json.loads: each key the callback
reads is either absent or holds a decoded value.  Extra keys are never
read and are not modelled. -/
structure Msg where
  T_out : Option FieldVal := none
  N_occ : Option FieldVal := none
  T_set : Option FieldVal := none
  I_sol : Option FieldVal := none

/-- State touched by the ingestion callback of dashboard.py: the global
simulator instance and the data_deque of published records. -/
structure DashState where
  sim : SimState
  deque : List DashRecord

/-- Body of the try block of on_sensor_data_received in dashboard.py, in
source order: convert N_occ with int(), build the inputs dict converting
T_out and T_set with float() and I_sol with float() of dict.get with
default 0.0, run one simulator step, convert T_set once more for the
published record, and append the record to the deque.  Every conversion
of a required field happens before the step call, so a conversion failure
raises before any mutation. -/
def tryBody (p : Params) (dt_s : ℚ) (st : DashState) (m : Msg) :
    Except PyError DashState := do
  let nv ← getItem m.N_occ
  let n_occ ← pyInt nv
  let tov ← getItem m.T_out
  let t_out ← pyFloat tov
  let tsv ← getItem m.T_set
  let t_set ← pyFloat tsv
  let i_sol ← pyFloat (m.I_sol.getD (.num 0))
  let inputs : Inputs := ⟨t_out, (n_occ : ℚ), t_set, some i_sol, none⟩
  let sr := HVACSimulator.step p dt_s st.sim inputs
  let tsv2 ← getItem m.T_set
  let t_set2 ← pyFloat tsv2
  pure ⟨sr.1, dequeAppend st.deque ⟨sr.2, (n_occ : ℚ), t_set2⟩⟩

/-- The on_sensor_data_received callback of dashboard.py: the try block
guarded by except (KeyError, ValueError).  A caught exception leaves the
simulator and the deque untouched and the callback returns normally; any
other exception class propagates to the caller of the callback. -/
def on_sensor_data_received (p : Params) (dt_s : ℚ) (st : DashState)
    (m : Msg) : Except PyError DashState :=
  match tryBody p dt_s st m with
  | .ok st1 => .ok st1
  | .error .keyError => .ok st
  | .error .valueError => .ok st
  | .error .typeError => .error .typeError

/-- The producer path fed a stream of payloads: each callback invocation
either yields the next state or, on an exception escaping the callback,
aborts the stream. -/
def processAll (p : Params) (dt_s : ℚ) :
    DashState → List Msg → Except PyError DashState
  | st, [] => .ok st
  | st, m :: rest =>
      match on_sensor_data_received p dt_s st m with
      | .ok st1 => processAll p dt_s st1 rest
      | .error e => .error e

/-- Dashboard state at startup: the simulator of dashboard.py with
initial state [18, 19, 600] and the empty deque. -/
def dashState0 : DashState := ⟨simState0, []⟩

/-- A well-formed payload: T_out 25, N_occ 5, T_set 24.  I_sol absent, so
the callback uses the 0.0 default. -/
def msgValid : Msg := ⟨some (.num 25), some (.num 5), some (.num 24), none⟩

/-- A payload missing the required field T_set. -/
def msgMissing : Msg := ⟨some (.num 25), some (.num 5), none, none⟩

/-- A payload whose required field T_out holds a non-numeric string. -/
def msgBadStr : Msg := ⟨some .nonNumericStr, some (.num 5), some (.num 24), none⟩

/-- A payload whose required field T_out holds a JSON null. -/
def msgNull : Msg := ⟨some .other, some (.num 5), some (.num 24), none⟩

end Dashboard

namespace HvacSim

lemma hvac_power_of_gt (T_z T_set : ℚ) (p : Params) (h : T_set < T_z) :
    hvac_power T_z T_set p =
      (p.m_air_des * p.c_p * (T_z - T_set),
       p.m_air_des * p.c_p * (T_z - T_set) / p.COP + p.P_fan_des) := by
  have hd : 0 < T_z - T_set := sub_pos.mpr h
  simp [hvac_power, hd]

lemma hvac_power_of_lt (T_z T_set : ℚ) (p : Params) (h : T_z < T_set) :
    hvac_power T_z T_set p =
      (p.m_air_des * p.c_p * (T_z - T_set),
       |p.m_air_des * p.c_p * (T_z - T_set)| / p.COP + p.P_fan_des) := by
  have hd : T_z - T_set < 0 := sub_neg.mpr h
  have hd2 : ¬ 0 < T_z - T_set := not_lt.mpr hd.le
  simp [hvac_power, hd, hd2]

lemma hvac_power_of_eq (T_z T_set : ℚ) (p : Params) (h : T_z = T_set) :
    hvac_power T_z T_set p = (0, 0) := by
  simp [hvac_power, h]

/-- Claim C1: the HVAC contribution to the zone temperature derivative in
rhs, namely the negated Q_HVAC term divided by the zone capacitance, is
strictly negative when T_z is above the setpoint (heat is removed) and
strictly positive when T_z is below it (heat is added), and the zone
derivative decomposes into the remaining balance terms plus exactly that
contribution; hence the HVAC term always drives T_z toward T_set, never
away from it. -/
theorem hvac_heat_term_sign (p : Params) (s : State) (inp : Inputs)
    (hm : 0 < p.m_air_des) (hc : 0 < p.c_p) (hC : 0 < p.C_z) :
    (inp.T_set < s.T_z →
      -(hvac_power s.T_z inp.T_set p).1 / p.C_z_kW < 0) ∧
    (s.T_z < inp.T_set →
      0 < -(hvac_power s.T_z inp.T_set p).1 / p.C_z_kW) ∧
    (rhs s inp p).dTz =
      ((inp.T_out - s.T_z) / p.R_oa + (s.T_w - s.T_z) / p.R_wz +
        (inp.Q_int.getD (100 * inp.N_occ)) / 1000) / p.C_z_kW +
      -(hvac_power s.T_z inp.T_set p).1 / p.C_z_kW := by
  have hCk : (0 : ℚ) < p.C_z_kW := hC
  refine ⟨?_, ?_, ?_⟩
  · intro h
    have hQ : 0 < (hvac_power s.T_z inp.T_set p).1 := by
      rw [hvac_power_of_gt _ _ _ h]
      exact mul_pos (mul_pos hm hc) (sub_pos.mpr h)
    exact div_neg_of_neg_of_pos (neg_lt_zero.mpr hQ) hCk
  · intro h
    have hQ : (hvac_power s.T_z inp.T_set p).1 < 0 := by
      rw [hvac_power_of_lt _ _ _ h]
      exact mul_neg_of_pos_of_neg (mul_pos hm hc) (sub_neg.mpr h)
    exact div_pos (neg_pos.mpr hQ) hCk
  · simp only [rhs]
    ring

/-- Witness for C1 at the concrete scenario state (T_z 18 below setpoint
24, default parameters): the HVAC contribution to the zone derivative is
strictly positive. -/
theorem hvac_heat_term_sign_witness :
    0 < -(hvac_power 18 24 defaultParams).1 / defaultParams.C_z_kW :=
  (hvac_heat_term_sign defaultParams ⟨18, 19, 600⟩ ⟨25, 5, 24, some 0, none⟩
    (by norm_num [defaultParams]) (by norm_num [defaultParams])
    (by norm_num [defaultParams])).2.1 (by norm_num)

/-- Claim C2 counterexample: at T_z 18 and T_set 24 with default
parameters, the power returned by the heating branch differs from the
claimed formula that divides by COP_heat (default 3): the code returns
1929/350 (dividing by COP = 3.5) while the claimed formula yields
623/100. -/
theorem heating_branch_cop_cex :
    (hvac_power 18 24 defaultParams).2 ≠
      |(hvac_power 18 24 defaultParams).1| / defaultParams.COP_heat +
        defaultParams.P_fan_des := by
  norm_num [hvac_power, defaultParams, abs_of_pos]

/-- Claim C2 amended: for T_z below T_set the heating branch returns
Q = m_air * c_p * (T_z - T_set), negative when m_air and c_p are
positive, and electrical power |Q| / COP + P_fan_des, dividing by the
single COP field (default 3.5, documented as the cooling efficiency); the
separate COP_heat field (default 3.0) is never used. -/
theorem heating_branch_formula (T_z T_set : ℚ) (p : Params)
    (h : T_z < T_set) :
    hvac_power T_z T_set p =
      (p.m_air_des * p.c_p * (T_z - T_set),
       |p.m_air_des * p.c_p * (T_z - T_set)| / p.COP + p.P_fan_des) ∧
    (0 < p.m_air_des → 0 < p.c_p → (hvac_power T_z T_set p).1 < 0) := by
  refine ⟨hvac_power_of_lt T_z T_set p h, fun hm hc => ?_⟩
  rw [hvac_power_of_lt T_z T_set p h]
  exact mul_neg_of_pos_of_neg (mul_pos hm hc) (sub_neg.mpr h)

/-- Witness for C2 amended at T_z 18, T_set 24 and default parameters. -/
theorem heating_branch_formula_witness :
    hvac_power 18 24 defaultParams =
      (defaultParams.m_air_des * defaultParams.c_p * (18 - 24),
       |defaultParams.m_air_des * defaultParams.c_p * (18 - 24)| /
          defaultParams.COP + defaultParams.P_fan_des) ∧
    (0 < defaultParams.m_air_des → 0 < defaultParams.c_p →
      (hvac_power 18 24 defaultParams).1 < 0) :=
  heating_branch_formula 18 24 defaultParams (by norm_num)

/-- Claim C3 counterexample: in the concrete scenario (default
parameters, state [18, 19, 600], dt 300, event T_out 25, N_occ 5, T_set
24, I_sol 0) the returned electrical power is not 0: with T_z below the
setpoint the heating branch is active and draws |Q| / COP + P_fan. -/
theorem concrete_step_power_cex :
    ((HVACSimulator.step defaultParams 300 simState0 inputs0).2).P_e
      ≠ 0 := by
  norm_num [HVACSimulator.step, rhs, hvac_power, defaultParams, abs_of_pos,
    simState0, inputs0, Params.C_z_kW, Params.C_w_kW]

/-- Claim C3 amended: the concrete scenario step returns electrical power
1929/350 kW (about 5.51, strictly positive: the heating branch yields
|Q| / COP + P_fan = (15.09 / 3.5) + 1.2) and CO2_z equal to 7495/12 ppm
(about 624.58), strictly greater than 600. -/
theorem concrete_step_values :
    ((HVACSimulator.step defaultParams 300 simState0 inputs0).2).P_e
        = 1929/350 ∧
    ((HVACSimulator.step defaultParams 300 simState0 inputs0).2).CO2_z
        = 7495/12 ∧
    600 < ((HVACSimulator.step defaultParams 300 simState0 inputs0).2).CO2_z := by
  refine ⟨?_, ?_, ?_⟩ <;>
    norm_num [HVACSimulator.step, rhs, hvac_power, defaultParams,
      abs_of_pos, simState0, inputs0, Params.C_z_kW, Params.C_w_kW]

/-- Claim C5: one call to step computes the derivatives with rhs at the
pre-call state, advances each of the three state components by its
derivative times the fixed step size dt_s, accumulates cumulative energy
by P_e times dt_s / 3600, and returns a result whose state fields equal
the post-update state and whose energy field equals the post-update
cumulative energy. -/
theorem step_euler_update (p : Params) (dt_s : ℚ) (s : SimState)
    (inp : Inputs) :
    (HVACSimulator.step p dt_s s inp).1.state.T_z
        = s.state.T_z + (rhs s.state inp p).dTz * dt_s ∧
    (HVACSimulator.step p dt_s s inp).1.state.T_w
        = s.state.T_w + (rhs s.state inp p).dTw * dt_s ∧
    (HVACSimulator.step p dt_s s inp).1.state.CO2_z
        = s.state.CO2_z + (rhs s.state inp p).dCO2 * dt_s ∧
    (HVACSimulator.step p dt_s s inp).1.cumulative_energy_kwh
        = s.cumulative_energy_kwh + (rhs s.state inp p).P_e * dt_s / 3600 ∧
    (HVACSimulator.step p dt_s s inp).2.T_z
        = (HVACSimulator.step p dt_s s inp).1.state.T_z ∧
    (HVACSimulator.step p dt_s s inp).2.T_w
        = (HVACSimulator.step p dt_s s inp).1.state.T_w ∧
    (HVACSimulator.step p dt_s s inp).2.CO2_z
        = (HVACSimulator.step p dt_s s inp).1.state.CO2_z ∧
    (HVACSimulator.step p dt_s s inp).2.P_e = (rhs s.state inp p).P_e ∧
    (HVACSimulator.step p dt_s s inp).2.E_KWh_cumulative
        = (HVACSimulator.step p dt_s s inp).1.cumulative_energy_kwh :=
  ⟨rfl, rfl, rfl, rfl, rfl, rfl, rfl, rfl, rfl⟩

end HvacSim

namespace HvacSim

/-- Claim C4: with positive air mass flow, specific heat, COP and fan
power, hvac_power always returns a nonnegative electrical power, the
power echoed in every step result is nonnegative, and with a nonnegative
step size the cumulative energy accumulator is nondecreasing across any
sequence of step calls from any starting state (in particular from the
initial zero). -/
theorem power_nonneg_energy_monotone (p : Params) (dt_s : ℚ)
    (hm : 0 < p.m_air_des) (hc : 0 < p.c_p) (hcop : 0 < p.COP)
    (hfan : 0 < p.P_fan_des) (hdt : 0 ≤ dt_s) :
    (∀ T_z T_set : ℚ, 0 ≤ (hvac_power T_z T_set p).2) ∧
    (∀ (s : SimState) (inp : Inputs),
      0 ≤ (HVACSimulator.step p dt_s s inp).2.P_e) ∧
    (∀ (s : SimState) (l : List Inputs),
      s.cumulative_energy_kwh ≤
        (HVACSimulator.runSteps p dt_s s l).1.cumulative_energy_kwh) := by
  have hP : ∀ T_z T_set : ℚ, 0 ≤ (hvac_power T_z T_set p).2 := by
    intro T_z T_set
    rcases lt_trichotomy T_z T_set with h | h | h
    · rw [hvac_power_of_lt _ _ _ h]
      exact add_nonneg (div_nonneg (abs_nonneg _) hcop.le) hfan.le
    · rw [hvac_power_of_eq _ _ _ h]
    · rw [hvac_power_of_gt _ _ _ h]
      exact add_nonneg
        (div_nonneg (mul_pos (mul_pos hm hc) (sub_pos.mpr h)).le hcop.le)
        hfan.le
  have hstep : ∀ (s : SimState) (inp : Inputs),
      s.cumulative_energy_kwh ≤
        (HVACSimulator.step p dt_s s inp).1.cumulative_energy_kwh := by
    intro s inp
    show s.cumulative_energy_kwh ≤
      s.cumulative_energy_kwh + (rhs s.state inp p).P_e * dt_s / 3600
    have hpe : (0 : ℚ) ≤ (rhs s.state inp p).P_e := hP s.state.T_z inp.T_set
    have hterm : (0 : ℚ) ≤ (rhs s.state inp p).P_e * dt_s / 3600 :=
      div_nonneg (mul_nonneg hpe hdt) (by norm_num)
    linarith
  refine ⟨hP, fun s inp => hP s.state.T_z inp.T_set, ?_⟩
  intro s l
  induction l generalizing s with
  | nil => exact le_refl _
  | cons inp rest ih => exact le_trans (hstep s inp) (ih _)

/-- Witness for C4 with default parameters and step size 300: a concrete
power value is nonnegative and cumulative energy does not decrease across
a concrete step sequence. -/
theorem power_nonneg_energy_monotone_witness :
    0 ≤ (hvac_power 30 24 defaultParams).2 ∧
    simState0.cumulative_energy_kwh ≤
      (HVACSimulator.runSteps defaultParams 300 simState0
        [inputs0]).1.cumulative_energy_kwh := by
  have h := power_nonneg_energy_monotone defaultParams 300
    (by norm_num [defaultParams]) (by norm_num [defaultParams])
    (by norm_num [defaultParams]) (by norm_num [defaultParams])
    (by norm_num)
  exact ⟨h.1 30 24, h.2.2 simState0 [inputs0]⟩

/-- Claim C9: with no occupants, positive volume, nonnegative ACH and
step size, and infiltration fraction ACH * dt / 3600 at most 1, one
simulator step moves CO2_z toward the outdoor baseline 400 ppm: the
distance |CO2_z - 400| never increases, and a concentration at or above
400 never drops below 400.  Applied at every step of a run this is the
monotone convergence of the claim. -/
theorem co2_step_contraction (p : Params) (dt_s : ℚ) (s : SimState)
    (inp : Inputs) (hocc : inp.N_occ = 0) (hV : 0 < p.V)
    (hACH : 0 ≤ p.ACH) (hdt : 0 ≤ dt_s)
    (hfrac : p.ACH * dt_s / 3600 ≤ 1) :
    |(HVACSimulator.step p dt_s s inp).1.state.CO2_z - 400| ≤
        |s.state.CO2_z - 400| ∧
    (400 ≤ s.state.CO2_z →
      400 ≤ (HVACSimulator.step p dt_s s inp).1.state.CO2_z) := by
  have hV0 : p.V ≠ 0 := hV.ne'
  have key : (HVACSimulator.step p dt_s s inp).1.state.CO2_z - 400 =
      (s.state.CO2_z - 400) * (1 - p.ACH * dt_s / 3600) := by
    show s.state.CO2_z + (rhs s.state inp p).dCO2 * dt_s - 400 = _
    simp only [rhs, hocc]
    field_simp
    ring
  have h1 : 0 ≤ 1 - p.ACH * dt_s / 3600 := sub_nonneg.mpr hfrac
  constructor
  · rw [key, abs_mul]
    have hfrac0 : (0 : ℚ) ≤ p.ACH * dt_s / 3600 :=
      div_nonneg (mul_nonneg hACH hdt) (by norm_num)
    have habs : |1 - p.ACH * dt_s / 3600| ≤ 1 := by
      rw [abs_of_nonneg h1]
      linarith
    have hle := mul_le_mul_of_nonneg_left habs
      (abs_nonneg (s.state.CO2_z - 400))
    simpa using hle
  · intro h
    have hm2 : 0 ≤ (s.state.CO2_z - 400) * (1 - p.ACH * dt_s / 3600) :=
      mul_nonneg (by linarith) h1
    linarith [key]

/-- Witness for C9 at default parameters, step size 300, state CO2 600
and an event with zero occupancy. -/
theorem co2_step_contraction_witness :
    |(HVACSimulator.step defaultParams 300 simState0
        ⟨25, 0, 24, none, none⟩).1.state.CO2_z - 400| ≤
      |simState0.state.CO2_z - 400| ∧
    (400 ≤ simState0.state.CO2_z →
      400 ≤ (HVACSimulator.step defaultParams 300 simState0
        ⟨25, 0, 24, none, none⟩).1.state.CO2_z) :=
  co2_step_contraction defaultParams 300 simState0 ⟨25, 0, 24, none, none⟩
    rfl (by norm_num [defaultParams]) (by norm_num [defaultParams])
    (by norm_num) (by norm_num [defaultParams])

lemma run_simulation_loop_eq_runSteps (p : Params) (dt_s : ℚ)
    (l : List Inputs) :
    ∀ (st : State) (en : ℚ),
      run_simulation_loop p dt_s st en l =
        ((HVACSimulator.runSteps p dt_s ⟨st, en⟩ l).2).map
          (fun r => (r.T_z, r.T_w, r.CO2_z, r.P_e, r.E_KWh_cumulative)) := by
  induction l with
  | nil => intro st en; rfl
  | cons row rest ih =>
      intro st en
      simp only [run_simulation_loop, HVACSimulator.runSteps, List.map_cons]
      rw [ih]
      rfl

/-- Claim C10: the batch loop of run_simulation and repeated calls of
HVACSimulator.step, started from the same initial state and zero
cumulative energy, produce identical per-step sequences of T_z, T_w,
CO2_z, P_e and cumulative energy for every parameter set, step size and
input sequence. -/
theorem batch_stateful_equivalence (p : Params) (dt_s : ℚ)
    (T_z0 T_w0 CO2_z0 : ℚ) (l : List Inputs) :
    run_simulation_loop p dt_s ⟨T_z0, T_w0, CO2_z0⟩ 0 l =
      ((HVACSimulator.runSteps p dt_s ⟨⟨T_z0, T_w0, CO2_z0⟩, 0⟩ l).2).map
        (fun r => (r.T_z, r.T_w, r.CO2_z, r.P_e, r.E_KWh_cumulative)) :=
  run_simulation_loop_eq_runSteps p dt_s l ⟨T_z0, T_w0, CO2_z0⟩ 0

/-- Claim C8 counterexample: constructing a parameter set with the
non-positive thermal constant R_oa = -1 does not fail: it returns the
parameter record, and a simulator steps with it, returning the usual
heating power of the concrete scenario.  No fail-fast check exists. -/
theorem params_no_validation_cex :
    ((-1 : ℚ) ≤ 0) ∧
    mkParams (-1) (8/5) 2 3000 15000 (7/2) (6/5) (5/2) 240 (2/5) (1/200)
      (503/500) (7/2) 3 = some badParams ∧
    ((HVACSimulator.step badParams 300 simState0 inputs0).2).P_e
      = 1929/350 := by
  refine ⟨by norm_num, rfl, ?_⟩
  norm_num [HVACSimulator.step, rhs, hvac_power, badParams, defaultParams,
    abs_of_pos, simState0, inputs0, Params.C_z_kW, Params.C_w_kW]

/-- Claim C8 amended: construction of a parameter set performs no
validation and always succeeds, whatever the field values, including
non-positive ones; integrators are therefore constructible and runnable
with invalid constants. -/
theorem params_construction_total (R_oa R_wz R_ow C_z C_w COP P_fan_des
    m_air_des V ACH E_occ c_p COP_cool COP_heat : ℚ) :
    mkParams R_oa R_wz R_ow C_z C_w COP P_fan_des m_air_des V ACH E_occ
      c_p COP_cool COP_heat =
      some ⟨R_oa, R_wz, R_ow, C_z, C_w, COP, P_fan_des, m_air_des, V, ACH,
        E_occ, c_p, COP_cool, COP_heat⟩ ∧
    mkParams R_oa R_wz R_ow C_z C_w COP P_fan_des m_air_des V ACH E_occ
      c_p COP_cool COP_heat ≠ none :=
  ⟨rfl, by simp [mkParams]⟩

end HvacSim

namespace Dashboard

open HvacSim

lemma dequeAppend_drop {α : Type} (l : List α) (x : α) :
    dequeAppend (l.drop (l.length - dequeMaxlen)) x =
      (l ++ [x]).drop ((l.length + 1) - dequeMaxlen) := by
  have hM : dequeMaxlen = 288 := rfl
  by_cases h : l.length < dequeMaxlen
  · have h0 : l.length - dequeMaxlen = 0 := by omega
    have h1 : l.length + 1 - dequeMaxlen = 0 := by omega
    simp only [h0, h1, List.drop_zero, dequeAppend]
    rw [if_pos h]
  · have hlen : (l.drop (l.length - dequeMaxlen)).length = dequeMaxlen := by
      rw [List.length_drop]; omega
    simp only [dequeAppend]
    rw [if_neg (by rw [hlen]; omega), List.tail_drop]
    have h2 : l.length + 1 - dequeMaxlen = (l.length - dequeMaxlen) + 1 := by
      omega
    rw [h2, List.drop_append_eq_append_drop]
    have h3 : l.length - dequeMaxlen + 1 - l.length = 0 := by omega
    rw [h3, List.drop_zero]

lemma dequeAppendAll_drop {α : Type} (xs : List α) :
    ∀ l : List α,
      dequeAppendAll (l.drop (l.length - dequeMaxlen)) xs =
        (l ++ xs).drop ((l ++ xs).length - dequeMaxlen) := by
  induction xs with
  | nil => intro l; simp [dequeAppendAll]
  | cons x xs ih =>
      intro l
      simp only [dequeAppendAll, List.foldl_cons]
      rw [dequeAppend_drop]
      have hlx : (l ++ [x]).length = l.length + 1 := by simp
      rw [← hlx]
      have hIH := ih (l ++ [x])
      simp only [dequeAppendAll] at hIH
      rw [hIH]
      simp [List.append_assoc]

/-- Claim C6: starting from the empty deque of dashboard startup,
appending any sequence of records leaves at most 288 of them, and the
buffer holds exactly the most recent up-to-288 records in the order they
were appended: after 288 + k appends the oldest k have been evicted.
dequeAppend is a total function, so appending when full never raises. -/
theorem deque_capacity_invariant (xs : List DashRecord) :
    (dequeAppendAll ([] : List DashRecord) xs).length ≤ dequeMaxlen ∧
    dequeAppendAll ([] : List DashRecord) xs =
      xs.drop (xs.length - dequeMaxlen) := by
  have h := dequeAppendAll_drop xs ([] : List DashRecord)
  simp only [List.length_nil, Nat.zero_sub, List.drop_nil, List.drop_zero,
    List.nil_append] at h
  refine ⟨?_, h⟩
  rw [h, List.length_drop]
  omega

/-- Claim C7: the code diverges from the claim at a concrete malformed
payload.  When the required field T_out holds a JSON null, float(None)
raises TypeError, which the except (KeyError, ValueError) clause of
on_sensor_data_received does not catch: the exception escapes the
callback instead of the event being rejected with processing continuing.
By contrast, a payload with a missing required field (KeyError) and one
with a non-numeric string (ValueError) are caught with the simulator
state, the cumulative energy and the deque left exactly unchanged, and a
subsequent stream is processed as if the rejected event had never
arrived. -/
theorem malformed_null_escapes :
    on_sensor_data_received defaultParams 300 dashState0 msgNull =
      .error .typeError ∧
    on_sensor_data_received defaultParams 300 dashState0 msgMissing =
      .ok dashState0 ∧
    on_sensor_data_received defaultParams 300 dashState0 msgBadStr =
      .ok dashState0 ∧
    processAll defaultParams 300 dashState0 [msgMissing, msgValid] =
      processAll defaultParams 300 dashState0 [msgValid] :=
  ⟨rfl, rfl, rfl, rfl⟩

end Dashboard
